import Mathlib

/-!
Verification of the Spots model (src/models/Spots.js) of the sweet-spots
repository, as a shallow embedding in Lean 4.

Modelling conventions:
- MongoDB ObjectId values are modelled as natural numbers (`Id`); the source
  compares ids through JSON.stringify of their string form, which is value
  equality, so those comparisons are modelled as equality on `Id`.  The one
  bare `===` between an ObjectId and a caller id (line 266) is reference
  equality, never true at runtime, and is modelled as constantly false
  (`strictEqIds`).
- JavaScript numbers are modelled as rationals, with an explicit `JsVal`
  type covering NaN, undefined and string values where the source code
  performs coercing arithmetic on non-numbers.
- The MongoDB document store is modelled as `DB`, a record of lists of
  documents; `findOne`/`find`/`update`/`remove`/`save` are modelled on it.
- Collaborator modules (Reviews, Tags, Users) are not under src/models in
  the provided sources except Spots.js; their behaviour is modelled from the
  spec contracts (marked `Modelled from the spec:` on each definition).
- Callback-style control flow in the source is modelled by state passing:
  each operation returns the new store and an `Except Err` result.
-/

namespace SweetSpots

/-- ObjectId values, modelled as naturals; the source compares them via
JSON.stringify, i.e. by value. -/
abbrev Id := Nat

/-- The error shape used by the source: a message plus an optional
http_status field. -/
structure Err where
  msg : String
  http_status : Option Nat := none
deriving Repr, DecidableEq

def BAD_REQUEST : Nat := 400
def NOT_FOUND : Nat := 404
def FORBIDDEN : Nat := 403
def SPOT_NOT_FOUND : String := "No such spot with that id!"

def TITLE_LOWER_LIMIT : Nat := 3
def TITLE_UPPER_LIMIT : Nat := 20
def FLOOR_UPPER_LIMIT : Nat := 3

/-- `const MILLISECONDS_IN_A_DAY = 86.4 * Math.pow(10, 6)`.  Exact in the
rationals: 86.4 * 10^6 = 86400000.  (The IEEE double differs from 86400000
by about 6e-9; no claim here depends on that difference.) -/
def MILLISECONDS_IN_A_DAY : ℚ := (86.4 : ℚ) * 10 ^ 6

/-- The character set matched by the JavaScript regex escape \s
(whitespace), per the ECMAScript definition. -/
def jsWhitespace (c : Char) : Bool :=
  c = ' ' || c = '\t' || c = '\n' || c.val = 11 || c.val = 12 || c = '\r' ||
  c.val = 0xa0 || c.val = 0x1680 || (0x2000 ≤ c.val && c.val ≤ 0x200a) ||
  c.val = 0x2028 || c.val = 0x2029 || c.val = 0x202f || c.val = 0x205f ||
  c.val = 0x3000 || c.val = 0xfeff

/-- Membership in the character class of the source title regex
`[a-zA-z0-9\s\']`.  Note that the source writes the range `A-z` (capital A
to LOWERCASE z), which also admits the six ASCII characters between
Z (0x5a) and a (0x61): bracket, backslash, closing bracket, caret,
underscore and backquote. -/
def titleClassChar (c : Char) : Bool :=
  ('a' ≤ c && c ≤ 'z') || ('A' ≤ c && c ≤ 'z') || ('0' ≤ c && c ≤ '9') ||
  jsWhitespace c || c = '\''

/-- `/^[a-zA-z0-9\s\']+$/.test(title)`: every character is in the class and
the string is non-empty (the regex uses +). -/
def titleRegexTest (title : String) : Bool :=
  !title.data.isEmpty && title.data.all titleClassChar

/-- Membership in the character class of the source floor regex
`[A-Z0-9]`. -/
def floorClassChar (c : Char) : Bool :=
  ('A' ≤ c && c ≤ 'Z') || ('0' ≤ c && c ≤ '9')

/-- `/^[A-Z0-9]+$/.test(floor)`. -/
def floorRegexTest (floor : String) : Bool :=
  !floor.data.isEmpty && floor.data.all floorClassChar

def TITLE_ERR : String :=
  "The title must be a unique name between 3 and 20 characters!"
def FLOOR_ERR : String :=
  "The floor must be alphanumerics and cannot be greater than 3 characters!"

/-- `checkRep(title, floor)` from the source.  `floor` is an
`Option String` with `none` for JavaScript null (an absent floor is passed
as null by the creation path).  Returns `none` when the rep invariant
holds, otherwise the error message string returned by the source. -/
def checkRep (title : String) (floor : Option String) : Option String :=
  let validTitle := titleRegexTest title &&
    decide (TITLE_LOWER_LIMIT ≤ title.length) &&
    decide (title.length ≤ TITLE_UPPER_LIMIT)
  let validFloor :=
    match floor with
    | none => true
    | some f => floorRegexTest f && decide (f.length ≤ FLOOR_UPPER_LIMIT)
  if !validTitle then some TITLE_ERR
  else if !validFloor then some FLOOR_ERR
  else none

/-- The title character class as the SPEC words it: `[A-Za-z0-9\s']`.
This follows the words of the spec, for comparison with the class the
source regex actually matches. -/
def specTitleChar (c : Char) : Bool :=
  ('A' ≤ c && c ≤ 'Z') || ('a' ≤ c && c ≤ 'z') || ('0' ≤ c && c ≤ '9') ||
  jsWhitespace c || c = '\''

/-- Title validity as the SPEC words it: characters from `[A-Za-z0-9\s']`
only, and length between 3 and 20. -/
def specTitleValid (title : String) : Bool :=
  title.data.all specTitleChar &&
  decide (3 ≤ title.length) && decide (title.length ≤ 20)

/-- Title validity as the source code actually checks it (regex class
`[a-zA-z0-9\s']`, i.e. `titleClassChar`, and length between 3 and 20),
stated at the Prop level. -/
def TitleOk (title : String) : Prop :=
  (∀ c ∈ title.data, titleClassChar c = true) ∧
  3 ≤ title.length ∧ title.length ≤ 20

/-- Floor validity as the source code checks it: null floor is valid, and a
present floor must be a non-empty `[A-Z0-9]` string of length at most 3. -/
def FloorOk (floor : Option String) : Prop :=
  ∀ f, floor = some f →
    (f.data ≠ [] ∧ (∀ c ∈ f.data, floorClassChar c = true) ∧ f.length ≤ 3)

theorem string_length_eq (s : String) : s.length = s.data.length := rfl

theorem titleRegexTest_iff (t : String) :
    titleRegexTest t = true ↔
      (t.data ≠ [] ∧ ∀ c ∈ t.data, titleClassChar c = true) := by
  simp [titleRegexTest, List.all_eq_true, List.isEmpty_iff]

theorem floorRegexTest_iff (f : String) :
    floorRegexTest f = true ↔
      (f.data ≠ [] ∧ ∀ c ∈ f.data, floorClassChar c = true) := by
  simp [floorRegexTest, List.all_eq_true, List.isEmpty_iff]

theorem validTitleBool_iff (title : String) :
    (titleRegexTest title &&
      decide (TITLE_LOWER_LIMIT ≤ title.length) &&
      decide (title.length ≤ TITLE_UPPER_LIMIT)) = true ↔ TitleOk title := by
  constructor
  · intro h
    simp only [Bool.and_eq_true, decide_eq_true_eq] at h
    obtain ⟨⟨hre, hlo⟩, hhi⟩ := h
    exact ⟨(titleRegexTest_iff title).mp hre |>.2, hlo, hhi⟩
  · rintro ⟨hclass, hlo, hhi⟩
    have hne : title.data ≠ [] := by
      intro hnil
      rw [string_length_eq, hnil] at hlo
      simp [TITLE_LOWER_LIMIT] at hlo
    simp only [Bool.and_eq_true, decide_eq_true_eq]
    exact ⟨⟨(titleRegexTest_iff title).mpr ⟨hne, hclass⟩, hlo⟩, hhi⟩

theorem validFloorBool_iff (floor : Option String) :
    (match floor with
      | none => true
      | some f => floorRegexTest f && decide (f.length ≤ FLOOR_UPPER_LIMIT))
      = true ↔ FloorOk floor := by
  cases floor with
  | none => simp [FloorOk]
  | some f =>
      simp only [FloorOk, Option.some.injEq, forall_eq', Bool.and_eq_true,
        decide_eq_true_eq, floorRegexTest_iff, FLOOR_UPPER_LIMIT]
      tauto

/-- C7 counterexample: the claim says the validator rejects with
InvalidTitle exactly when the title has a character outside
`[A-Za-z0-9\s']`, but the source regex writes the range `A-z`, which also
admits the underscore: `checkRep` accepts the title "ab_" although the
claimed character class rejects it. -/
theorem c7_counterexample :
    checkRep "ab_" none = none ∧ specTitleValid "ab_" = false := by
  constructor <;> decide

/-- C7 (amended): `checkRep` rejects with the InvalidTitle message exactly
when the title fails the character test of the regex class `[a-zA-z0-9\s']`
as written in the source (whose `A-z` range also admits bracket, backslash,
closing bracket, caret, underscore and backquote) or has length outside
[3, 20]; when the title passes, it rejects with the InvalidFloor message
exactly when the floor is non-null and is not a non-empty `[A-Z0-9]` string
of length at most 3; otherwise it accepts. -/
theorem c7_checkRep_characterization (title : String) (floor : Option String) :
    (checkRep title floor = some TITLE_ERR ↔ ¬TitleOk title) ∧
    (checkRep title floor = some FLOOR_ERR ↔ TitleOk title ∧ ¬FloorOk floor) ∧
    (checkRep title floor = none ↔ TitleOk title ∧ FloorOk floor) := by
  have hmsg : TITLE_ERR ≠ FLOOR_ERR := by decide
  unfold checkRep
  rcases hvt : (titleRegexTest title &&
      decide (TITLE_LOWER_LIMIT ≤ title.length) &&
      decide (title.length ≤ TITLE_UPPER_LIMIT)) with _ | _
  · have hT : ¬TitleOk title := by
      rw [← validTitleBool_iff, hvt]; simp
    simp [hT, hmsg]
  · have hT : TitleOk title := (validTitleBool_iff title).mp hvt
    rcases hvf : (match floor with
        | none => true
        | some f => floorRegexTest f && decide (f.length ≤ FLOOR_UPPER_LIMIT))
        with _ | _
    · have hF : ¬FloorOk floor := by
        rw [← validFloorBool_iff, hvf]; simp
      simp [hvf, hT, hF, hmsg.symm]
    · have hF : FloorOk floor := (validFloorBool_iff floor).mp hvf
      simp [hvf, hT, hF, hmsg.symm]

/-! ## JavaScript value model

`addReviewToSpot` and `deleteSpot` perform arithmetic on values that are
not numbers (a mongoose document, the undefined result of reading a missing
property), so those spots are modelled with an explicit JavaScript value
type.  A mongoose document is represented by its string coercion (a
document has no own valueOf, so ToPrimitive falls through to toString,
which yields its inspect string); this is observationally exact because the
source only ever uses such a document inside `+` and `/`, which coerce it
first. -/

inductive JsVal where
  | num (q : ℚ)
  | nan
  | undefined
  | str (s : String)
deriving Repr, DecidableEq

/-- Parse a string the way the JavaScript ToNumber coercion does on the
string forms this development produces: optional sign, then a decimal
literal built from digits and at most one dot.  `none` stands for NaN.
(Exponent, hex and Infinity forms are omitted: no string this model feeds
to ToNumber uses them.) -/
def natOfDigits (l : List Char) : Nat :=
  l.foldl (fun n c => 10 * n + (c.toNat - 48)) 0

def isDigitChar (c : Char) : Bool := '0' ≤ c && c ≤ '9'

def parseUnsignedDecimal (t : List Char) : Option ℚ :=
  let intPart := t.takeWhile isDigitChar
  let rest := t.dropWhile isDigitChar
  match rest with
  | [] => if intPart.isEmpty then none else some (natOfDigits intPart : ℚ)
  | '.' :: frac =>
      if frac.all isDigitChar && !(intPart.isEmpty && frac.isEmpty) then
        some ((natOfDigits intPart : ℚ) +
          (natOfDigits frac : ℚ) / ((10 : ℚ) ^ frac.length))
      else none
  | _ => none

/-- Strip leading and trailing whitespace from a character list (the
ToNumber coercion ignores surrounding whitespace). -/
def trimChars (l : List Char) : List Char :=
  ((l.dropWhile jsWhitespace).reverse.dropWhile jsWhitespace).reverse

def jsStrToNum (s : String) : Option ℚ :=
  match trimChars s.data with
  | [] => some 0
  | '-' :: rest => (parseUnsignedDecimal rest).map Neg.neg
  | '+' :: rest => parseUnsignedDecimal rest
  | t => parseUnsignedDecimal t

/-- JavaScript ToNumber on the (already primitive) values of `JsVal`;
`none` stands for NaN. -/
def jsToNumber : JsVal → Option ℚ
  | .num q => some q
  | .nan => none
  | .undefined => none
  | .str s => jsStrToNum s

/-- JavaScript ToString on `JsVal` values.  The rendering of a non-integer
number is simplified (JavaScript prints doubles); every string this model
builds with it is later consumed by ToNumber on a string that is
non-numeric from its first character, so the exact rendering of the numeric
tail is irrelevant. -/
def jsToString : JsVal → String
  | .num q => if q.den = 1 then toString q.num else toString q
  | .nan => "NaN"
  | .undefined => "undefined"
  | .str s => s

/-- JavaScript `+`: if either primitive operand is a string the result is
string concatenation, otherwise numeric addition with NaN absorption. -/
def jsAdd (a b : JsVal) : JsVal :=
  match a, b with
  | .str s, _ => .str (s ++ jsToString b)
  | _, .str s => .str (jsToString a ++ s)
  | _, _ =>
      match jsToNumber a, jsToNumber b with
      | some x, some y => .num (x + y)
      | _, _ => .nan

/-- JavaScript `-`: always numeric; any non-number operand gives NaN. -/
def jsSub (a b : JsVal) : JsVal :=
  match jsToNumber a, jsToNumber b with
  | some x, some y => .num (x - y)
  | _, _ => .nan

/-- JavaScript `/`: numeric; any non-number operand gives NaN.  (Division
by zero yields an infinity in JavaScript; this model is never applied with
a zero divisor, the divisor being a positive array length.) -/
def jsDiv (a b : JsVal) : JsVal :=
  match jsToNumber a, jsToNumber b with
  | some x, some y => if y = 0 then .nan else .num (x / y)
  | _, _ => .nan

/-- JavaScript `>`: numeric comparison, false whenever an operand coerces
to NaN. -/
def jsGt (a b : JsVal) : Bool :=
  match jsToNumber a, jsToNumber b with
  | some x, some y => decide (y < x)
  | _, _ => false

/-! ## Data model -/

structure Review where
  id : Id
  creator : Id
  description : String
  rating : ℚ
deriving Repr, DecidableEq

structure Tag where
  id : Id
  label : String
deriving Repr, DecidableEq

structure User where
  id : Id
  rep : ℤ
deriving Repr, DecidableEq

structure Location where
  latitude : ℚ
  longitude : ℚ
deriving Repr, DecidableEq

structure Report where
  reporter : Id
  reporterScore : ℤ
deriving Repr, DecidableEq

/-- A Spot document as stored: `reviews` holds Review ids (hydration is a
separate step), `rating` is a JavaScript number-ish value (the source can
store NaN there), `timestamp` is the creation Date in milliseconds. -/
structure Spot where
  id : Id
  title : String
  creator : Id
  location : Location
  floor : String
  tag : Id
  reviews : List Id
  rating : JsVal
  timestamp : ℚ
  reports : List Report
deriving Repr, DecidableEq

/-- The document store: one list per collection, plus a counter for
store-assigned fresh ids. -/
structure DB where
  spots : List Spot
  reviews : List Review
  tags : List Tag
  users : List User
  nextId : Id
deriving Repr, DecidableEq

/-- The string coercion of a populated mongoose Review document (its
inspect output).  What matters downstream is only that it is a non-numeric
string: it begins with an opening brace. -/
def reviewInspect (r : Review) : String :=
  "\x7b _id: " ++ toString r.id ++ ", creator: " ++ toString r.creator ++
    ", rating: " ++ toString r.rating.num ++ " \x7d"

/-- A populated Review document as a JavaScript primitive (see the note on
`JsVal`: coercion to primitive yields its inspect string). -/
def reviewJsVal (r : Review) : JsVal := .str (reviewInspect r)

/-- Reading the (non-existent) createdAt property of a Date value yields
undefined: `spot.timestamp.createdAt`. -/
def dateCreatedAt (_t : ℚ) : JsVal := .undefined

/-! ## Collaborator contracts

The Reviews, Tags and Users model implementations are not among the
provided sources (only src/models/Spots.js is); the definitions below are
modelled from the spec contracts in section 6.  Failure modes that are not
determined by the store state (a Review or Tag creation failing its own
validation) are exposed as explicit parameters in `Env`. -/

/-- Outcomes of the collaborator failure modes that are internal to the
missing Reviews/Tags implementations: `some e` means the corresponding
create call fails with error `e`. -/
structure Env where
  reviewCreateErr : Option Err
  tagCreateErr : Option Err
deriving Repr, DecidableEq

/-- Modelled from the spec: `ReviewService.create(authorId, text, rating)
-> Review | Error`.  On success a fresh Review document is inserted and
returned. -/
def Reviews.addReview (env : Env) (db : DB) (creatorId : Id)
    (description : String) (rating : ℚ) : DB × Except Err Review :=
  match env.reviewCreateErr with
  | some e => (db, .error e)
  | none =>
      let r : Review :=
        { id := db.nextId, creator := creatorId,
          description := description, rating := rating }
      ({ db with reviews := db.reviews ++ [r], nextId := db.nextId + 1 },
        .ok r)

/-- Modelled from the spec: `TagService.getByLabel(label) -> Tag |
Error(NotFound)`. -/
def Tags.getTagByLabel (db : DB) (label : String) : Except Err Tag :=
  match db.tags.find? (fun t => t.label = label) with
  | some t => .ok t
  | none => .error { msg := "No such tag!", http_status := some NOT_FOUND }

/-- Modelled from the spec: `TagService.create(label, seeded) -> Tag |
Error`.  On success a fresh Tag document is inserted and returned. -/
def Tags.addTag (env : Env) (db : DB) (label : String) :
    DB × Except Err Tag :=
  match env.tagCreateErr with
  | some e => (db, .error e)
  | none =>
      let t : Tag := { id := db.nextId, label := label }
      ({ db with tags := db.tags ++ [t], nextId := db.nextId + 1 }, .ok t)

/-- Modelled from the spec: `UserService.getById(id) -> User |
Error(NotFound)`. -/
def Users.findUserById (db : DB) (userId : Id) : Except Err User :=
  match db.users.find? (fun u => u.id = userId) with
  | some u => .ok u
  | none => .error { msg := "No such user!", http_status := some NOT_FOUND }

/-- Modelled from the spec: `UserService.adjustReputation(id, increase) ->
void | Error(NotFound)`: adds one to (or subtracts one from) the rep of the
given user. -/
def Users.updateRep (db : DB) (userId : Id) (increase : Bool) :
    DB × Except Err Unit :=
  match db.users.find? (fun u => u.id = userId) with
  | none => (db, .error { msg := "No such user!", http_status := some NOT_FOUND })
  | some _ =>
      ({ db with users := db.users.map (fun u =>
          if u.id = userId then
            { u with rep := if increase then u.rep + 1 else u.rep - 1 }
          else u) }, .ok ())

/-- `reviewModel.remove(matching _id)`: removes every review with the given
id. -/
def removeReviewById (db : DB) (reviewId : Id) : DB :=
  { db with reviews := db.reviews.filter (fun r => r.id ≠ reviewId) }

/-- `tagModel.remove(matching _id)`: removes every tag with the given
id. -/
def removeTagById (db : DB) (tagId : Id) : DB :=
  { db with tags := db.tags.filter (fun t => t.id ≠ tagId) }

/-- `spotModel.remove(matching _id)`: removes every spot with the given
id. -/
def removeSpotById (db : DB) (spotId : Id) : DB :=
  { db with spots := db.spots.filter (fun s => s.id ≠ spotId) }

/-- A single-document store update (`update(matching _id, fields)` and
`document.save()` both write back one document): replaces the first spot
with the given id by its image under `f`. -/
def updateSpotById (spots : List Spot) (spotId : Id) (f : Spot → Spot) :
    List Spot :=
  match spots with
  | [] => []
  | s :: rest =>
      if s.id = spotId then f s :: rest
      else s :: updateSpotById rest spotId f

/-- The shape of a mongoose write error; `checkSpot` branches on
`err.code === 11000` (duplicate key). -/
structure MongoErr where
  code : Nat
  text : String
deriving Repr, DecidableEq

/-- `spot.save()` on a new document: the title field carries a unique
index, so insertion fails with a duplicate-key error (code 11000) exactly
when a stored spot already has this title; otherwise the document is
appended. -/
def spotSave (db : DB) (s : Spot) : DB × Except MongoErr Spot :=
  if db.spots.any (fun t => t.title = s.title) then
    (db, .error { code := 11000, text := "duplicate key" })
  else
    ({ db with spots := db.spots ++ [s] }, .ok s)

/-- `errorHandler(err, callback)` from the source: forwards the message,
keeping the http_status classification only when present. -/
def errorHandler (e : Err) : Err :=
  match e.http_status with
  | some hs => { msg := e.msg, http_status := some hs }
  | none => { msg := e.msg }

/-! ## Spots operations (src/models/Spots.js) -/

/-- `getSpotById(spotId, callback)`: `findOne(matching _id)` on the spots
collection, NOT_FOUND when absent.  (The subsequent populate step is
modelled separately by `hydrateReviews`.) -/
def getSpotById (db : DB) (spotId : Id) : Except Err Spot :=
  match db.spots.find? (fun s => s.id = spotId) with
  | none => .error { msg := SPOT_NOT_FOUND, http_status := some NOT_FOUND }
  | some s => .ok s

/-- Hydration of the review references of a spot (`populate` on the
reviews path): each stored review id is resolved against the reviews
collection.  Dangling references are dropped (the source assumes they
never occur). -/
def hydrateReviews (db : DB) (s : Spot) : List Review :=
  s.reviews.filterMap (fun rid => db.reviews.find? (fun r => r.id = rid))

/-- `reviews.reduce(function(total, oldReview) \x7b return total +=
oldReview.rating; \x7d)` — with NO initial value, so the accumulator
starts as the first review DOCUMENT (not a number): JavaScript coerces it
to its inspect string at the first `+`, and every later step concatenates.
(On an empty array this reduce would throw a TypeError; the source only
reaches it after a push, on a non-empty array.) -/
def totalRatingReduce : List Review → JsVal
  | [] => .nan
  | r :: rest =>
      rest.foldl (fun total old => jsAdd total (.num old.rating))
        (reviewJsVal r)

/-- `spot.creator === creatorId` in the source: a BARE strict equality
between the stored mongoose ObjectId object and the caller-supplied id.
Strict equality between an object and another value is reference (or
type-strict) equality and is never true here: the stored ObjectId is a
fresh object on every fetch, and every other id comparison in Spots.js
(lines 264, 421, 469, 506-509) wraps the ids in JSON.stringify precisely
because `===` does not compare them by value.  The check is dead code and
is modelled as constantly false. -/
def strictEqIds (_spotCreator _creatorId : Id) : Bool := false

/-- `addReviewToSpot(spotId, creatorId, description, rating, callback)`
from the source.  Returns the updated store together with the (in-memory)
spot and the created review on success. -/
def addReviewToSpot (env : Env) (db : DB) (spotId creatorId : Id)
    (description : String) (rating : ℚ) :
    DB × Except Err (Spot × Review) :=
  match getSpotById db spotId with
  | .error e => (db, .error (errorHandler e))
  | .ok spot =>
      let populated := hydrateReviews db spot
      -- JSON.stringify(reviewToCheck.creator._id) === JSON.stringify(creatorId)
      let currentReviews := populated.filter (fun r => r.creator = creatorId)
      -- spot.creator === creatorId: strict equality, never true (see strictEqIds)
      if currentReviews.length ≠ 0 ∨ strictEqIds spot.creator creatorId = true then
        (db, .error { msg := "You already submitted a review for this spot!",
                      http_status := some FORBIDDEN })
      else
        match Reviews.addReview env db creatorId description rating with
        | (db1, .error e) => (db1, .error (errorHandler e))
        | (db1, .ok review) =>
            let reviews := populated ++ [review]
            let totalRating := totalRatingReduce reviews
            let newRating := jsDiv totalRating (.num (reviews.length : ℚ))
            let reviewsIds := reviews.map (fun populatedReview => populatedReview.id)
            let spot1 := { spot with rating := newRating, reviews := reviewsIds }
            let db2 := { db1 with spots := (updateSpotById db1.spots spot.id
              (fun s => { s with reviews := reviewsIds, rating := newRating })) }
            (db2, .ok (spot1, review))

/-- `deleteSpot(spotId, userId, callback)` from the source.  `now` is the
value of Date.now() at the call.  Note the source compares
`Date.now() - spot.timestamp.createdAt` with the day constant: a Date has
no createdAt property, so the left side is NaN. -/
def deleteSpot (db : DB) (now : ℚ) (spotId userId : Id) :
    DB × Except Err Unit :=
  match getSpotById db spotId with
  | .error e => (db, .error (errorHandler e))
  | .ok spot =>
      -- the inner (spot === null) re-check in the source is unreachable:
      -- getSpotById already returned NOT_FOUND for a missing spot
      if spot.creator ≠ userId then
        (db, .error { msg := "You do not have access to delete this spot!",
                      http_status := some FORBIDDEN })
      else if jsGt (jsSub (.num now) (dateCreatedAt spot.timestamp))
          (.num MILLISECONDS_IN_A_DAY) then
        (db, .error { msg := "It has been more than 24 hours since this spot was created!",
                      http_status := some FORBIDDEN })
      else
        (removeSpotById db spotId, .ok ())

/-- `reportSpot(spotId, userId, callback)` from the source. -/
def reportSpot (db : DB) (spotId userId : Id) : DB × Except Err Unit :=
  match getSpotById db spotId with
  | .error e => (db, .error (errorHandler e))
  | .ok spot =>
      match Users.findUserById db userId with
      | .error e => (db, .error (errorHandler e))
      | .ok user =>
          -- spot.reports ? spot.reports : [] — an array is always truthy
          let reports := spot.reports
          let reporters := reports.map (fun report => report.reporter)
          if reporters.contains userId then
            (db, .error { msg := "You have already reported this spot!",
                          http_status := some FORBIDDEN })
          else
            let reportScore :=
              reports.foldl (fun total report => total + report.reporterScore) 0
                + user.rep
            -- spot.reviews.length ? spot.reviews.length : 0 — same value
            let numReviews := spot.reviews.length
            if reportScore > 10 + (numReviews : ℤ) then
              (removeSpotById db spotId, .ok ())
            else
              ({ db with spots := (updateSpotById db.spots spot.id
                  (fun s => { s with reports :=
                    s.reports ++ [{ reporter := userId, reporterScore := user.rep }] })) },
                .ok ())

/-- `getSpotsByLocation(minLatitude, maxLatitude, minLongitude,
maxLongitude, callback)` from the source: a find with strict `gt`/`lt`
bounds on both coordinates. -/
def getSpotsByLocation (db : DB)
    (minLatitude maxLatitude minLongitude maxLongitude : ℚ) : List Spot :=
  db.spots.filter (fun s =>
    decide (minLatitude < s.location.latitude) &&
    decide (s.location.latitude < maxLatitude) &&
    decide (minLongitude < s.location.longitude) &&
    decide (s.location.longitude < maxLongitude))

/-- `removeIfInvalid(reviewId, tagId, createdTag, error, callback)` from
the source: deletes the created review, and the created tag only when this
call created it.  (The error object is passed through unchanged by the
source; here the caller keeps it.) -/
def removeIfInvalid (db : DB) (reviewId tagId : Id) (createdTag : Bool) : DB :=
  let db1 := removeReviewById db reviewId
  if createdTag then removeTagById db1 tagId else db1

/-- `checkSpot(title, creatorId, location, floor, tag, review, createdTag,
callback)` from the source: validate, bump the creator rep, then save the
new spot, compensating through `removeIfInvalid` on any failure.  `now` is
the Date.now() default the schema assigns to the timestamp. -/
def checkSpot (db : DB) (now : ℚ) (title : String) (creatorId : Id)
    (location : Location) (floor : Option String) (tag : Tag)
    (review : Review) (createdTag : Bool) : DB × Except Err Spot :=
  match checkRep title floor with
  | some isInvalid =>
      (removeIfInvalid db review.id tag.id createdTag,
        .error { msg := isInvalid, http_status := some BAD_REQUEST })
  | none =>
      let spot : Spot :=
        { id := db.nextId, title := title, creator := creatorId,
          location := location,
          floor := match floor with | some f => f | none => "1",
          tag := tag.id, reviews := [review.id],
          rating := .num review.rating, timestamp := now, reports := [] }
      match Users.updateRep db creatorId true with
      | (db1, .error e) =>
          match e.http_status with
          | some hs =>
              (removeIfInvalid db1 review.id tag.id createdTag,
                .error { msg := e.msg, http_status := some hs })
          | none =>
              (removeIfInvalid db1 review.id tag.id createdTag,
                .error { msg := e.msg })
      | (db1, .ok _) =>
          match spotSave db1 spot with
          | (db2, .error e) =>
              if e.code = 11000 then
                (removeIfInvalid db2 review.id tag.id createdTag,
                  .error { msg := "A Spot already exists with this title.",
                           http_status := some BAD_REQUEST })
              else
                (removeIfInvalid db2 review.id tag.id createdTag,
                  .error { msg := e.text })
          | (db2, .ok newSpot) => (db2, .ok newSpot)

/-- `addSpot(title, creatorId, location, floor, label, description,
rating, callback)` from the source: the creation saga. -/
def addSpot (env : Env) (db : DB) (now : ℚ) (title : String)
    (creatorId : Id) (location : Location) (floor : Option String)
    (label description : String) (rating : ℚ) : DB × Except Err Spot :=
  match Reviews.addReview env db creatorId description rating with
  | (db1, .error e) => (db1, .error (errorHandler e))
  | (db1, .ok review) =>
      match Tags.getTagByLabel db1 label with
      | .error e =>
          match e.http_status with
          | some _ =>
              -- tag does not exist: createdTag = true, try to create it
              match Tags.addTag env db1 label with
              | (db2, .error e2) =>
                  match e2.http_status with
                  | some hs =>
                      (removeReviewById db2 review.id,
                        .error { msg := e2.msg, http_status := some hs })
                  | none =>
                      (removeReviewById db2 review.id,
                        .error { msg := e2.msg })
              | (db2, .ok newTag) =>
                  checkSpot db2 now title creatorId location floor newTag
                    review true
          | none =>
              (removeReviewById db1 review.id, .error { msg := e.msg })
      | .ok tag =>
          checkSpot db1 now title creatorId location floor tag review false

/-! ## Concrete documents used to evaluate the operations -/

/-- Both collaborator create calls succeed. -/
def envOk : Env := { reviewCreateErr := none, tagCreateErr := none }

/-- The seed review of the demo spot: written by user 2, rating 4. -/
def demoReview : Review :=
  { id := 5, creator := 2, description := "seed", rating := 4 }

/-- A spot created by user 7 at time 0 with the single seed review. -/
def demoSpot : Spot :=
  { id := 1, title := "Nice Spot", creator := 7,
    location := { latitude := 1, longitude := 2 }, floor := "1", tag := 3,
    reviews := [5], rating := .num 4, timestamp := 0, reports := [] }

def demoDb : DB :=
  { spots := [demoSpot], reviews := [demoReview], tags := [], users := [],
    nextId := 10 }

/-! ## Claim theorems -/

/-- C1: the claim states that after a successful `addReviewToSpot` the
persisted rating equals the arithmetic mean of the review ratings.  The
code contradicts its own documentation (the model header and the schema
describe `rating` as the average of the review ratings): the reduce that
sums the ratings has no initial value, so its accumulator starts as the
first review document, the addition coerces it to a string, and the
division then produces NaN.  Evaluation at the failing input: a spot with
one review of rating 4 receives a second review of rating 2; the claim
requires the persisted rating (4 + 2) / 2 = 3, but the code persists
NaN. -/
theorem c1_rating_nan_eval :
    ((addReviewToSpot envOk demoDb 1 3 "great" 2).1.spots.map Spot.rating
      = [JsVal.nan]) ∧
    ((addReviewToSpot envOk demoDb 1 3 "great" 2).2.isOk = true) ∧
    (((4 : ℚ) + 2) / 2 = 3) ∧ JsVal.nan ≠ JsVal.num 3 :=
  ⟨by decide, by decide, by norm_num, by decide⟩

/-- C2: the claim states that `deleteSpot` enforces the 24-hour window.
The code contradicts its own documentation (the doc comment says the user
may delete a spot within 24 hours of creation): it reads
`spot.timestamp.createdAt`, but `timestamp` is a Date, which has no
createdAt property, so the elapsed-time comparison is `NaN > 86400000`,
which is false, and the window is never enforced.  Evaluation at the
failing input: the creator (user 7) deletes the demo spot (created at time
0) at time 2 * 86400000, i.e. 48 hours later; the claim requires
Forbidden, but the code removes the spot. -/
theorem c2_deletes_after_window_eval :
    ((deleteSpot demoDb (2 * MILLISECONDS_IN_A_DAY) 1 7).1
      = { demoDb with spots := [] }) ∧
    ((deleteSpot demoDb (2 * MILLISECONDS_IN_A_DAY) 1 7).2.isOk = true) ∧
    demoSpot.creator = 7 ∧ demoSpot.timestamp = 0 ∧
    MILLISECONDS_IN_A_DAY = 86400000 ∧
    2 * MILLISECONDS_IN_A_DAY - 0 > MILLISECONDS_IN_A_DAY :=
  ⟨by decide, by decide, by decide, by decide,
    by norm_num [MILLISECONDS_IN_A_DAY],
    by norm_num [MILLISECONDS_IN_A_DAY]⟩

/-- C9: `getSpotsByLocation` returns exactly the stored spots whose
coordinates lie strictly inside the given bounds; a spot whose latitude or
longitude equals a bound is excluded. -/
theorem c9_getSpotsByLocation_strict (db : DB)
    (minLat maxLat minLng maxLng : ℚ) (s : Spot) :
    (s ∈ getSpotsByLocation db minLat maxLat minLng maxLng ↔
      (s ∈ db.spots ∧ minLat < s.location.latitude ∧
        s.location.latitude < maxLat ∧ minLng < s.location.longitude ∧
        s.location.longitude < maxLng)) ∧
    ((s.location.latitude = minLat ∨ s.location.latitude = maxLat ∨
      s.location.longitude = minLng ∨ s.location.longitude = maxLng) →
      s ∉ getSpotsByLocation db minLat maxLat minLng maxLng) := by
  have hmem : s ∈ getSpotsByLocation db minLat maxLat minLng maxLng ↔
      (s ∈ db.spots ∧ minLat < s.location.latitude ∧
        s.location.latitude < maxLat ∧ minLng < s.location.longitude ∧
        s.location.longitude < maxLng) := by
    simp [getSpotsByLocation, List.mem_filter, and_assoc]
  refine ⟨hmem, ?_⟩
  intro hb hin
  obtain ⟨-, h1, h2, h3, h4⟩ := hmem.mp hin
  rcases hb with h | h | h | h
  · rw [h] at h1; exact lt_irrefl _ h1
  · rw [h] at h2; exact lt_irrefl _ h2
  · rw [h] at h3; exact lt_irrefl _ h3
  · rw [h] at h4; exact lt_irrefl _ h4

/-- C6 counterexample: the claim requires every call whose creatorId
equals the creator of the spot to be rejected with Forbidden, but the
source's creator check is a bare strict equality between the stored
ObjectId and the caller id, which never holds.  The demo spot was created
by user 7 while its only review is authored by user 2: a call by user 7
succeeds and persists a self-review (the review collection afterwards
holds authors 2 and 7) instead of failing with Forbidden. -/
theorem c6_counterexample :
    demoSpot.creator = 7 ∧
    ((addReviewToSpot envOk demoDb 1 7 "mine" 5).2.isOk = true) ∧
    ((addReviewToSpot envOk demoDb 1 7 "mine" 5).1.reviews.map Review.creator
      = [2, 7]) :=
  ⟨by decide, by decide, by decide⟩

/-- C6 (amended): `addReviewToSpot` rejects with Forbidden every call
whose creatorId already appears among the authors of the existing reviews
of the spot; the store is returned unchanged, so rating and reviews are
untouched and no Review is created.  The separate creator check of the
source (`spot.creator === creatorId`) is a strict equality between the
stored ObjectId and the caller id and never holds, so a call by the
creator of the spot is rejected exactly when the creator already authored
one of its reviews — which the creation saga guarantees through the seed
review. -/
theorem c6_forbidden_unchanged (env : Env) (db : DB) (spotId creatorId : Id)
    (description : String) (rating : ℚ) (spot : Spot)
    (hspot : getSpotById db spotId = Except.ok spot)
    (h : ∃ r ∈ hydrateReviews db spot, r.creator = creatorId) :
    addReviewToSpot env db spotId creatorId description rating =
      (db, Except.error { msg := "You already submitted a review for this spot!",
                          http_status := some FORBIDDEN }) := by
  have hcond : ((hydrateReviews db spot).filter
      (fun r => r.creator = creatorId)).length ≠ 0 ∨
      strictEqIds spot.creator creatorId = true := by
    obtain ⟨r, hr, hrc⟩ := h
    left
    have hmem : r ∈ (hydrateReviews db spot).filter
        (fun r => decide (r.creator = creatorId)) :=
      List.mem_filter.mpr ⟨hr, by simp [hrc]⟩
    intro hlen
    rw [List.length_eq_zero] at hlen
    rw [hlen] at hmem
    exact absurd hmem (List.not_mem_nil r)
  simp only [addReviewToSpot, hspot]
  rw [if_pos hcond]

/-- C6 witness: user 2 already reviewed the demo spot, and a second
attempt by user 2 is rejected with Forbidden, leaving the store
unchanged. -/
theorem c6_witness :
    addReviewToSpot envOk demoDb 1 2 "again" 5 =
      (demoDb, Except.error { msg := "You already submitted a review for this spot!",
                              http_status := some FORBIDDEN }) :=
  c6_forbidden_unchanged envOk demoDb 1 2 "again" 5 demoSpot rfl
    ⟨demoReview, by decide, by decide⟩

/-- A single-document update by id rewrites the document that `find?`
locates. -/
theorem mem_updateSpotById (spots : List Spot) (sid : Id) (f : Spot → Spot)
    (s : Spot) (h : spots.find? (fun t => t.id = sid) = some s) :
    f s ∈ updateSpotById spots sid f := by
  induction spots with
  | nil => simp at h
  | cons a rest ih =>
      by_cases ha : a.id = sid
      · rw [List.find?_cons_of_pos _ (by simpa using ha)] at h
        injection h with h
        unfold updateSpotById
        rw [if_pos ha]
        subst h
        exact List.mem_cons_self _ _
      · rw [List.find?_cons_of_neg _ (by simpa using ha)] at h
        unfold updateSpotById
        rw [if_neg ha]
        exact List.mem_cons_of_mem _ (ih h)

/-- A successful `getSpotById` is a successful `find?` on the spots
collection, keyed by the id of the returned spot. -/
theorem find?_of_getSpotById (db : DB) (spotId : Id) (spot : Spot)
    (hs : getSpotById db spotId = Except.ok spot) :
    db.spots.find? (fun t => t.id = spot.id) = some spot := by
  simp only [getSpotById] at hs
  cases hf : db.spots.find? (fun s => s.id = spotId) with
  | none => rw [hf] at hs; exact absurd hs (by simp)
  | some s0 =>
      rw [hf] at hs
      have hs0 : s0 = spot := by
        have : Except.ok (ε := Err) s0 = Except.ok spot := hs
        injection this
      subst hs0
      have hid : s0.id = spotId := by simpa using List.find?_some hf
      rw [hid]
      exact hf

/-- C3: `reportSpot`, for an existing spot and an existing reporting user:
a repeat report (the user already appears among the reporters) is rejected
with Forbidden and the store is unchanged; otherwise, when the existing
report-score sum plus the user reputation exceeds 10 plus the review
count, the spot is deleted from the store (so no report record is
written); otherwise the spot persists with exactly one additional report
entry carrying this reporter and their reputation. -/
theorem c3_reportSpot (db : DB) (spotId userId : Id) (spot : Spot) (user : User)
    (hs : getSpotById db spotId = Except.ok spot)
    (hu : Users.findUserById db userId = Except.ok user) :
    ((spot.reports.map (fun report => report.reporter)).contains userId = true →
      reportSpot db spotId userId =
        (db, Except.error { msg := "You have already reported this spot!",
                            http_status := some FORBIDDEN })) ∧
    ((spot.reports.map (fun report => report.reporter)).contains userId = false →
      (spot.reports.foldl (fun total report => total + report.reporterScore) 0
          + user.rep > 10 + (spot.reviews.length : ℤ) →
        ((reportSpot db spotId userId).2 = Except.ok () ∧
          ∀ s ∈ (reportSpot db spotId userId).1.spots, s.id ≠ spotId)) ∧
      (spot.reports.foldl (fun total report => total + report.reporterScore) 0
          + user.rep ≤ 10 + (spot.reviews.length : ℤ) →
        ((reportSpot db spotId userId).2 = Except.ok () ∧
          { spot with reports := spot.reports ++
              [{ reporter := userId, reporterScore := user.rep }] }
            ∈ (reportSpot db spotId userId).1.spots))) := by
  refine ⟨?_, ?_⟩
  · intro hrep
    simp only [reportSpot, hs, hu, hrep]
    simp
  · intro hrep
    constructor
    · intro hgt
      simp only [reportSpot, hs, hu, hrep]
      rw [if_neg (by decide : ¬(false = true)), if_pos hgt]
      refine ⟨rfl, ?_⟩
      intro s hmem
      simp only [removeSpotById, List.mem_filter] at hmem
      simpa using hmem.2
    · intro hle
      simp only [reportSpot, hs, hu, hrep]
      rw [if_neg (by decide : ¬(false = true)), if_neg (not_lt.mpr hle)]
      refine ⟨rfl, ?_⟩
      exact mem_updateSpotById db.spots spot.id _ spot
        (find?_of_getSpotById db spotId spot hs)

def c3User : User := { id := 9, rep := 13 }

def c3Review1 : Review := { id := 21, creator := 2, description := "a", rating := 4 }

def c3Review2 : Review := { id := 22, creator := 3, description := "b", rating := 2 }

/-- A spot with two reviews and no reports: its moderation threshold is
10 + 2 = 12. -/
def c3Spot : Spot :=
  { id := 4, title := "Busy Spot", creator := 7,
    location := { latitude := 0, longitude := 0 }, floor := "1", tag := 3,
    reviews := [21, 22], rating := .num 3, timestamp := 0, reports := [] }

def c3Db : DB :=
  { spots := [c3Spot], reviews := [c3Review1, c3Review2], tags := [],
    users := [c3User], nextId := 30 }

/-- C3 witness (the worked example of the spec): a spot with 2 reviews and
no prior reports, reported by a user of reputation 13: 0 + 13 > 12, so the
spot is deleted. -/
theorem c3_witness :
    (reportSpot c3Db 4 9).2 = Except.ok () ∧
    ∀ s ∈ (reportSpot c3Db 4 9).1.spots, s.id ≠ 4 :=
  ((c3_reportSpot c3Db 4 9 c3Spot c3User rfl rfl).2 (by decide)).1 (by decide)

/-- C4: in the creation saga, when the tag does not exist and creating it
fails, the saga removes the review it created in step 1 (no review with
the fresh id remains), inserts no spot, and surfaces the tag-creation
error. -/
theorem c4_tag_compensation (db : DB) (now : ℚ) (e : Err) (title : String)
    (creatorId : Id) (location : Location) (floor : Option String)
    (label description : String) (rating : ℚ)
    (hlabel : db.tags.find? (fun t => t.label = label) = none) :
    (∀ r ∈ (addSpot { reviewCreateErr := none, tagCreateErr := some e } db
        now title creatorId location floor label description rating).1.reviews,
      r.id ≠ db.nextId) ∧
    ((addSpot { reviewCreateErr := none, tagCreateErr := some e } db
        now title creatorId location floor label description rating).1.spots
      = db.spots) ∧
    ((addSpot { reviewCreateErr := none, tagCreateErr := some e } db
        now title creatorId location floor label description rating).2
      = Except.error { msg := e.msg, http_status := e.http_status }) := by
  simp only [addSpot, Reviews.addReview, Tags.getTagByLabel, hlabel, Tags.addTag]
  obtain ⟨msg, hs⟩ := e
  cases hs <;>
  · refine ⟨?_, rfl, rfl⟩
    intro r hr
    have h2 := (List.mem_filter.mp hr).2
    simpa using h2

def c4Err : Err :=
  { msg := "The tag must be a unique name that is under 20 characters!",
    http_status := some BAD_REQUEST }

/-- C4 witness: against the demo store (which has no tags), a creation
whose tag creation fails leaves no trace of the seed review and no new
spot, and surfaces the tag error. -/
theorem c4_witness :
    (∀ r ∈ (addSpot { reviewCreateErr := none, tagCreateErr := some c4Err }
        demoDb 0 "Quiet Nook" 7 { latitude := 0, longitude := 0 } none
        "study" "calm" 5).1.reviews, r.id ≠ demoDb.nextId) ∧
    ((addSpot { reviewCreateErr := none, tagCreateErr := some c4Err }
        demoDb 0 "Quiet Nook" 7 { latitude := 0, longitude := 0 } none
        "study" "calm" 5).1.spots = demoDb.spots) ∧
    ((addSpot { reviewCreateErr := none, tagCreateErr := some c4Err }
        demoDb 0 "Quiet Nook" 7 { latitude := 0, longitude := 0 } none
        "study" "calm" 5).2
      = Except.error { msg := c4Err.msg, http_status := c4Err.http_status }) :=
  c4_tag_compensation demoDb 0 c4Err "Quiet Nook" 7
    { latitude := 0, longitude := 0 } none "study" "calm" 5 rfl

/-- C8: a successful creation yields a spot whose rating is the rating of
the seed review (the review created in step 1, carrying the requested
rating) and whose review list is exactly that one review. -/
theorem c8_created_spot_seed (db : DB) (now : ℚ) (title : String)
    (creatorId : Id) (location : Location) (floor : Option String)
    (label description : String) (rating : ℚ) (u : User)
    (hvalid : checkRep title floor = none)
    (hu : db.users.find? (fun x => x.id = creatorId) = some u)
    (hdup : db.spots.any (fun s => s.title = title) = false) :
    ∃ s, (addSpot envOk db now title creatorId location floor label
        description rating).2 = Except.ok s ∧
      s.rating = JsVal.num rating ∧
      s.reviews = [db.nextId] ∧
      ({ id := db.nextId, creator := creatorId, description := description,
         rating := rating } : Review)
        ∈ (addSpot envOk db now title creatorId location floor label
            description rating).1.reviews := by
  cases htag : db.tags.find? (fun t => t.label = label) with
  | some tag =>
      simp only [addSpot, envOk, Reviews.addReview, Tags.getTagByLabel, htag,
        checkSpot, hvalid, Users.updateRep, hu, spotSave, hdup]
      refine ⟨_, rfl, rfl, rfl, ?_⟩
      simp
  | none =>
      simp only [addSpot, envOk, Reviews.addReview, Tags.getTagByLabel, htag,
        Tags.addTag, checkSpot, hvalid, Users.updateRep, hu, spotSave, hdup]
      refine ⟨_, rfl, rfl, rfl, ?_⟩
      simp

/-- The creator of the demo spot, present in the user collection. -/
def sagaUser : User := { id := 7, rep := 3 }

/-- A store with one spot (title "Nice Spot"), its seed review, the tag
"study" and the creator user. -/
def sagaDb : DB :=
  { spots := [demoSpot], reviews := [demoReview],
    tags := [{ id := 3, label := "study" }], users := [sagaUser],
    nextId := 10 }

/-- C8 witness: a concrete successful creation on the saga store yields a
spot rated by its seed review alone. -/
theorem c8_witness :
    ∃ s, (addSpot envOk sagaDb 0 "Quiet Nook" 7
        { latitude := 0, longitude := 0 } none "study" "calm" 5).2
        = Except.ok s ∧
      s.rating = JsVal.num 5 ∧
      s.reviews = [10] ∧
      ({ id := 10, creator := 7, description := "calm", rating := 5 } : Review)
        ∈ (addSpot envOk sagaDb 0 "Quiet Nook" 7
            { latitude := 0, longitude := 0 } none "study" "calm" 5).1.reviews :=
  c8_created_spot_seed sagaDb 0 "Quiet Nook" 7
    { latitude := 0, longitude := 0 } none "study" "calm" 5 sagaUser
    (by decide) rfl (by decide)

/-- C5: when the spot save fails with the duplicate-title conflict (code
11000), the saga surfaces the BadRequest conflict error, deletes the seed
review, keeps a pre-existing tag untouched, and deletes the tag exactly
when this call created it. -/
theorem c5_duplicate_title_compensation (db : DB) (now : ℚ) (title : String)
    (creatorId : Id) (location : Location) (floor : Option String)
    (label description : String) (rating : ℚ) (u : User)
    (hvalid : checkRep title floor = none)
    (hu : db.users.find? (fun x => x.id = creatorId) = some u)
    (hdup : db.spots.any (fun s => s.title = title) = true) :
    ((addSpot envOk db now title creatorId location floor label
        description rating).2
      = Except.error { msg := "A Spot already exists with this title.",
                       http_status := some BAD_REQUEST }) ∧
    (∀ r ∈ (addSpot envOk db now title creatorId location floor label
        description rating).1.reviews, r.id ≠ db.nextId) ∧
    ((db.tags.find? (fun t => t.label = label)).isSome = true →
      (addSpot envOk db now title creatorId location floor label
        description rating).1.tags = db.tags) ∧
    (db.tags.find? (fun t => t.label = label) = none →
      ∀ t ∈ (addSpot envOk db now title creatorId location floor label
        description rating).1.tags, t.id ≠ db.nextId + 1) := by
  cases htag : db.tags.find? (fun t => t.label = label) with
  | some tag =>
      simp only [addSpot, envOk, Reviews.addReview, Tags.getTagByLabel, htag,
        checkSpot, hvalid, Users.updateRep, hu, spotSave, hdup,
        removeIfInvalid, removeReviewById]
      refine ⟨rfl, ?_, ?_, ?_⟩
      · intro r hr
        have h2 := (List.mem_filter.mp hr).2
        simpa using h2
      · intro _
        rfl
      · intro hnone
        exact absurd hnone (by simp)
  | none =>
      simp only [addSpot, envOk, Reviews.addReview, Tags.getTagByLabel, htag,
        Tags.addTag, checkSpot, hvalid, Users.updateRep, hu, spotSave, hdup,
        removeIfInvalid, removeReviewById, removeTagById]
      refine ⟨rfl, ?_, ?_, ?_⟩
      · intro r hr
        have h2 := (List.mem_filter.mp hr).2
        simpa using h2
      · intro hsome
        exact absurd hsome (by simp)
      · intro _
        intro t ht
        have h2 := (List.mem_filter.mp ht).2
        simpa using h2

/-- C5 witness: creating a second spot titled "Nice Spot" (already taken)
with the pre-existing tag "study" fails with the conflict error, removes
the seed review, and leaves the tag collection untouched. -/
theorem c5_witness :
    ((addSpot envOk sagaDb 0 "Nice Spot" 7 { latitude := 0, longitude := 0 }
        none "study" "calm" 5).2
      = Except.error { msg := "A Spot already exists with this title.",
                       http_status := some BAD_REQUEST }) ∧
    (∀ r ∈ (addSpot envOk sagaDb 0 "Nice Spot" 7
        { latitude := 0, longitude := 0 } none "study" "calm" 5).1.reviews,
      r.id ≠ sagaDb.nextId) ∧
    ((sagaDb.tags.find? (fun t => t.label = "study")).isSome = true →
      (addSpot envOk sagaDb 0 "Nice Spot" 7 { latitude := 0, longitude := 0 }
        none "study" "calm" 5).1.tags = sagaDb.tags) ∧
    (sagaDb.tags.find? (fun t => t.label = "study") = none →
      ∀ t ∈ (addSpot envOk sagaDb 0 "Nice Spot" 7
          { latitude := 0, longitude := 0 } none "study" "calm" 5).1.tags,
        t.id ≠ sagaDb.nextId + 1) :=
  c5_duplicate_title_compensation sagaDb 0 "Nice Spot" 7
    { latitude := 0, longitude := 0 } none "study" "calm" 5 sagaUser
    (by decide) rfl (by decide)

/-- C10: when the spot save fails on a duplicate title, the compensation
removes only the review (and a created tag); the reputation increment of
step 4 is not rolled back, so the user collection still carries the
creator with reputation one higher. -/
theorem c10_rep_kept_on_failed_create (db : DB) (now : ℚ) (title : String)
    (creatorId : Id) (location : Location) (floor : Option String)
    (label description : String) (rating : ℚ) (u : User)
    (hvalid : checkRep title floor = none)
    (hu : db.users.find? (fun x => x.id = creatorId) = some u)
    (hdup : db.spots.any (fun s => s.title = title) = true) :
    (∃ e, (addSpot envOk db now title creatorId location floor label
        description rating).2 = Except.error e) ∧
    ((addSpot envOk db now title creatorId location floor label
        description rating).1.users
      = db.users.map (fun x =>
          if x.id = creatorId then { x with rep := x.rep + 1 } else x)) := by
  cases htag : db.tags.find? (fun t => t.label = label) with
  | some tag =>
      simp only [addSpot, envOk, Reviews.addReview, Tags.getTagByLabel, htag,
        checkSpot, hvalid, Users.updateRep, hu, spotSave, hdup,
        removeIfInvalid, removeReviewById]
      exact ⟨⟨_, rfl⟩, by simp⟩
  | none =>
      simp only [addSpot, envOk, Reviews.addReview, Tags.getTagByLabel, htag,
        Tags.addTag, checkSpot, hvalid, Users.updateRep, hu, spotSave, hdup,
        removeIfInvalid, removeReviewById, removeTagById]
      exact ⟨⟨_, rfl⟩, by simp⟩

/-- C10 witness: the failed duplicate-title creation on the saga store
leaves user 7 with reputation 3 + 1 = 4. -/
theorem c10_witness :
    (∃ e, (addSpot envOk sagaDb 0 "Nice Spot" 7
        { latitude := 0, longitude := 0 } none "study" "calm" 5).2
        = Except.error e) ∧
    ((addSpot envOk sagaDb 0 "Nice Spot" 7 { latitude := 0, longitude := 0 }
        none "study" "calm" 5).1.users
      = sagaDb.users.map (fun x =>
          if x.id = 7 then { x with rep := x.rep + 1 } else x)) :=
  c10_rep_kept_on_failed_create sagaDb 0 "Nice Spot" 7
    { latitude := 0, longitude := 0 } none "study" "calm" 5 sagaUser
    (by decide) rfl (by decide)

end SweetSpots
